import Mathlib

/-!
# Match-Me-If-You-Can: the tile game of `script.js`

A shallow embedding of the game logic of `script.js` (tile factory, shuffle, drag
controller, match engine, scoring) followed by theorems about it.

Modelling conventions.

* Pixel coordinates are integers (`Int`): `offsetLeft` / `offsetTop` are integer valued in
  the DOM, and on integer pointer coordinates and board sizes every value computed by the
  drag code stays an integer, so that what is written to `style.left` is what `offsetLeft`
  reads back.
* `Date.now()` is an integer number of milliseconds and is passed in as `now`; elapsed
  seconds are exact rationals.
* `Math.random()` is replaced by its outcome: the index `j` drawn at step `i` of the shuffle
  (`pick i`) and the pixel offsets at which the layout puts a freshly created tile (`place`).
* A tile object is identified by its index in `gameState.tiles`; `tile === draggedTile` is
  equality of indices.  The DOM element of a tile and the closure variables of
  `addDragFunctionality` (`isDragging`, `startX`, ...) are fields of the tile record.
* Sound, toasts, animations, z-index and the timer text are presentation and are left out.
-/

namespace MatchMe

/-! ## Configuration -/

/-- The three keys of `CONFIG.difficulties`. -/
inductive Difficulty where
  | easy
  | medium
  | hard
deriving DecidableEq, Repr

/-- One entry of `CONFIG.difficulties`. -/
structure DifficultyConfig where
  pairs : Nat
  timeBonus : Int
deriving DecidableEq, Repr

/-- The table `CONFIG.difficulties`. -/
def CONFIG.difficulties : Difficulty → DifficultyConfig
  | .easy => { pairs := 6, timeBonus := 10 }
  | .medium => { pairs := 8, timeBonus := 15 }
  | .hard => { pairs := 12, timeBonus := 20 }

/-- The constant `CONFIG.matchDistance`, in pixels. -/
def CONFIG.matchDistance : Int := 60

/-- The constant `CONFIG.pointsPerMatch`. -/
def CONFIG.pointsPerMatch : Int := 100

/-- The constant `CONFIG.timeBonusMultiplier`. -/
def CONFIG.timeBonusMultiplier : Int := 2

/-- An entry of `CHARACTERS` (the image url is presentation and is left out). -/
structure Character where
  id : String
  name : String
deriving DecidableEq, Repr, Inhabited

/-- The roster `CHARACTERS`. -/
def CHARACTERS : List Character :=
  [ { id := "leo1", name := "DiCaprio 1" },
    { id := "leo2", name := "DiCaprio 2" },
    { id := "detective1", name := "Detective 1" },
    { id := "detective2", name := "Detective 2" } ]

/-! ## Data model -/

/-- A tile record together with its DOM element and the drag closure state.
`id` stands for the template string `character.id_i_j`. -/
structure Tile where
  id : String × Nat × Nat
  characterId : String
  name : String
  matched : Bool
  offsetLeft : Int
  offsetTop : Int
  highlight : Bool
  isDragging : Bool
  startX : Int
  startY : Int
  initialX : Int
  initialY : Int
deriving DecidableEq, Repr

/-- The global `gameState`. `startTime = none` is `null`; `timerInterval` records whether
an interval is registered; `draggedTile` holds the index of the tile. -/
structure GameState where
  isPlaying : Bool
  isPaused : Bool
  tiles : List Tile
  matchedPairs : Nat
  totalPairs : Nat
  score : Int
  startTime : Option Int
  timerInterval : Bool
  draggedTile : Option Nat
  difficulty : Difficulty
deriving DecidableEq, Repr

/-- The initial value of `gameState`. -/
def initialGameState : GameState :=
  { isPlaying := false, isPaused := false, tiles := [], matchedPairs := 0, totalPairs := 0,
    score := 0, startTime := none, timerInterval := false, draggedTile := none,
    difficulty := .medium }

/-- What the drag code reads from the page: `gameBoard.getBoundingClientRect()` and the
`offsetWidth` of a tile element. -/
structure Layout where
  boardWidth : Int
  boardHeight : Int
  tileSize : Int
deriving DecidableEq, Repr

/-! ## Shuffle -/

/-- The destructuring swap `[array[i], array[j]] = [array[j], array[i]]` for indices inside
the array (the only ones the shuffle produces); other indices leave the list as it is. -/
def swapAt {α : Type} (xs : List α) (i j : Nat) : List α :=
  match xs[i]?, xs[j]? with
  | some a, some b => (xs.set i b).set j a
  | _, _ => xs

/-- The loop of `shuffleArray` from index `i` down to `1`; `pick i` is the value of
`Math.floor(Math.random() * (i + 1))` drawn at step `i`. -/
def shuffleLoop {α : Type} (pick : Nat → Nat) : Nat → List α → List α
  | 0, xs => xs
  | i + 1, xs => shuffleLoop pick i (swapAt xs (i + 1) (pick (i + 1)))

/-- The function `shuffleArray`: `for (let i = array.length - 1; i > 0; i--)`. -/
def shuffleArray {α : Type} (pick : Nat → Nat) (xs : List α) : List α :=
  shuffleLoop pick (xs.length - 1) xs

/-! ## Tile factory -/

/-- The two tiles pushed for pair index `i` (inner loop `j = 0, 1` of `createTiles`). -/
def pairTiles (i : Nat) : List Tile :=
  let character := CHARACTERS.getD (i % CHARACTERS.length) default
  (List.range 2).map fun j =>
    { id := (character.id, i, j), characterId := character.id, name := character.name,
      matched := false, offsetLeft := 0, offsetTop := 0, highlight := false,
      isDragging := false, startX := 0, startY := 0, initialX := 0, initialY := 0 }

/-- The array `tilePairs` before the shuffle (outer loop `i = 0 .. numPairs - 1`). -/
def tilePairs (numPairs : Nat) : List Tile :=
  (List.range numPairs).flatMap pairTiles

/-- The function `createTiles`: build the pairs, shuffle them, and put every tile on the
board; `place index` is the pixel offset of the tile at `index` (`entry` is the pair of
`index` and `tile` of the `forEach`). -/
def createTiles (s : GameState) (pick : Nat → Nat) (place : Nat → Int × Int) : GameState :=
  let difficulty := CONFIG.difficulties s.difficulty
  let numPairs := difficulty.pairs
  let shuffled := shuffleArray pick (tilePairs numPairs)
  { s with tiles := shuffled.enum.map fun (entry : Nat × Tile) =>
      { entry.2 with offsetLeft := (place entry.1).1, offsetTop := (place entry.1).2 } }

/-- The function `startGame` (`startTimer` registers the interval). -/
def startGame (s : GameState) (pick : Nat → Nat) (place : Nat → Int × Int) (now : Int) :
    GameState :=
  let s1 := { s with isPlaying := true, isPaused := false, matchedPairs := 0, score := 0,
                     startTime := some now }
  let difficulty := CONFIG.difficulties s1.difficulty
  let s2 := { s1 with totalPairs := difficulty.pairs }
  let s3 := createTiles s2 pick place
  { s3 with timerInterval := true }

/-! ## Match engine and scoring -/

/-- The radicand of `getDistance`: `dx * dx + dy * dy`. -/
def getDistanceSq (x1 y1 x2 y2 : Int) : Int :=
  let dx := x1 - x2
  let dy := y1 - y2
  dx * dx + dy * dy

/-- The test `getDistance(x1, y1, x2, y2) <= CONFIG.matchDistance`, decided on the squares:
for integers `Math.sqrt(n) <= 60` holds exactly when `n <= 60 * 60`. -/
def withinMatchDistance (x1 y1 x2 y2 : Int) : Bool :=
  decide (getDistanceSq x1 y1 x2 y2 ≤ CONFIG.matchDistance * CONFIG.matchDistance)

/-- Apply `f` to the tile at index `i`. -/
def modifyTile (f : Tile → Tile) : Nat → List Tile → List Tile
  | _, [] => []
  | 0, t :: ts => f t :: ts
  | i + 1, t :: ts => t :: modifyTile f i ts

/-- The loop that removes the class `highlight` from every tile. -/
def clearHighlights (tiles : List Tile) : List Tile :=
  tiles.map fun tile => { tile with highlight := false }

/-- The predicate shared by the `forEach` of `checkForNearbyMatches` and the `filter` of
`checkForMatches`, for the tile `tile` at index `j`, the dragged tile `dragged` at index `d`
and the position `(x, y)`. -/
def isCandidate (d : Nat) (dragged : Tile) (x y : Int) (j : Nat) (tile : Tile) : Bool :=
  if j = d ∨ tile.matched = true then false
  else if tile.characterId = dragged.characterId then
    withinMatchDistance x y tile.offsetLeft tile.offsetTop
  else false

/-- The tiles that `checkForNearbyMatches` highlights, by index. -/
def nearbyMatches (s : GameState) (d : Nat) (x y : Int) : List Nat :=
  match s.tiles[d]? with
  | none => []
  | some dragged =>
    (s.tiles.enum.filter fun (entry : Nat × Tile) =>
      isCandidate d dragged x y entry.1 entry.2).map Prod.fst

/-- The function `checkForNearbyMatches`. -/
def checkForNearbyMatches (s : GameState) (d : Nat) (x y : Int) : GameState :=
  match s.tiles[d]? with
  | none => s
  | some dragged =>
    { s with tiles := (clearHighlights s.tiles).enum.map fun (entry : Nat × Tile) =>
        if isCandidate d dragged x y entry.1 entry.2 then { entry.2 with highlight := true }
        else entry.2 }

/-- The array `matchingTiles` of `checkForMatches`, by index, in iteration order. -/
def matchingTiles (s : GameState) (d : Nat) (x y : Int) : List Nat :=
  match s.tiles[d]? with
  | none => []
  | some dragged =>
    (s.tiles.enum.filter fun (entry : Nat × Tile) =>
      isCandidate d dragged x y entry.1 entry.2).map Prod.fst

/-- Elapsed seconds `(Date.now() - gameState.startTime) / 1000` (`null` counts as `0`). -/
def timeElapsed (s : GameState) (now : Int) : ℚ :=
  ((now - s.startTime.getD 0 : Int) : ℚ) / 1000

/-- The points of one match, as computed in `handleMatch`. -/
def matchPoints (s : GameState) (now : Int) : Int :=
  let timeBonus := max 0 ((CONFIG.difficulties s.difficulty).timeBonus
    - Int.floor (timeElapsed s now / 10))
  CONFIG.pointsPerMatch + timeBonus * CONFIG.timeBonusMultiplier

/-- The function `handleMatch` on the tiles at indices `i1` and `i2`. -/
def handleMatch (s : GameState) (i1 i2 : Nat) (now : Int) : GameState :=
  let tiles1 := modifyTile (fun t => { t with matched := true }) i1 s.tiles
  let tiles2 := modifyTile (fun t => { t with matched := true }) i2 tiles1
  { s with tiles := tiles2, matchedPairs := s.matchedPairs + 1,
           score := s.score + matchPoints s now }

/-- The arguments with which `checkForMatches` calls `handleMatch`, if it does: the dragged
tile and `matchingTiles[0]`, the filter running after the highlights are cleared. -/
def checkForMatchesCall (s : GameState) (d : Nat) (x y : Int) : Option (Nat × Nat) :=
  let s1 := { s with tiles := clearHighlights s.tiles }
  match matchingTiles s1 d x y with
  | [] => none
  | matchedTile :: _ => some (d, matchedTile)

/-- The function `checkForMatches`. -/
def checkForMatches (s : GameState) (d : Nat) (x y : Int) (now : Int) : GameState :=
  let s1 := { s with tiles := clearHighlights s.tiles }
  match checkForMatchesCall s d x y with
  | none => s1
  | some (tile1, tile2) => handleMatch s1 tile1 tile2 now

/-- The bonus `finalTimeBonus` of `handleGameComplete`. -/
def finalTimeBonus (s : GameState) (now : Int) : Int :=
  Int.floor (max 0 (300 - timeElapsed s now) * 5)

/-- The function `handleGameComplete` (`stopTimer` clears the interval). -/
def handleGameComplete (s : GameState) (now : Int) : GameState :=
  { s with isPlaying := false, timerInterval := false,
           score := s.score + finalTimeBonus s now }

/-! ## Drag controller -/

/-- The handler `startDrag` of the tile at index `i`. -/
def startDrag (s : GameState) (i : Nat) (clientX clientY : Int) : GameState :=
  match s.tiles[i]? with
  | none => s
  | some tile =>
    if !s.isPlaying || tile.matched then s
    else
      { s with
        draggedTile := some i,
        tiles := modifyTile (fun t =>
          { t with isDragging := true, startX := clientX, startY := clientY,
                   initialX := t.offsetLeft, initialY := t.offsetTop }) i s.tiles }

/-- The clamp `Math.max(0, Math.min(v, bound))` of `drag`. -/
def clampToBoard (v bound : Int) : Int :=
  max 0 (min v bound)

/-- The handler `drag` of the tile at index `i`. -/
def drag (L : Layout) (s : GameState) (i : Nat) (clientX clientY : Int) : GameState :=
  match s.tiles[i]? with
  | none => s
  | some tile =>
    if !tile.isDragging then s
    else
      let deltaX := clientX - tile.startX
      let deltaY := clientY - tile.startY
      let newX := clampToBoard (tile.initialX + deltaX) (L.boardWidth - L.tileSize)
      let newY := clampToBoard (tile.initialY + deltaY) (L.boardHeight - L.tileSize)
      let s1 := { s with tiles := modifyTile (fun t =>
        { t with offsetLeft := newX, offsetTop := newY }) i s.tiles }
      checkForNearbyMatches s1 i newX newY

/-- The handler `endDrag` of the tile at index `i`. -/
def endDrag (s : GameState) (i : Nat) (now : Int) : GameState :=
  match s.tiles[i]? with
  | none => s
  | some tile =>
    if !tile.isDragging then s
    else
      let s1 := { s with draggedTile := none,
                         tiles := modifyTile (fun t => { t with isDragging := false }) i s.tiles }
      checkForMatches s1 i tile.offsetLeft tile.offsetTop now

/-! ## Events of a session -/

/-- What can happen between `startGame` and the next start or restart. The handlers `drag`
and `endDrag` of every tile are registered on `document`, so a move or a release runs them
for all tiles, in creation order. -/
inductive Event where
  | pointerDown (i : Nat) (clientX clientY : Int)
  | pointerMove (clientX clientY : Int)
  | pointerUp (now : Int)
  | pauseKey
  | timerTick (now : Int)
  | completionTimeout (now : Int)
deriving DecidableEq, Repr

/-- One event. The timer tick only rewrites the timer text; the completion timeout is the
pair of `setTimeout`s armed by `handleMatch`. -/
def step (L : Layout) (s : GameState) : Event → GameState
  | .pointerDown i clientX clientY => startDrag s i clientX clientY
  | .pointerMove clientX clientY =>
    (List.range s.tiles.length).foldl (fun st i => drag L st i clientX clientY) s
  | .pointerUp now =>
    (List.range s.tiles.length).foldl (fun st i => endDrag st i now) s
  | .pauseKey => if s.isPlaying then { s with isPaused := !s.isPaused } else s
  | .timerTick _ => s
  | .completionTimeout now =>
    if s.matchedPairs ≥ s.totalPairs then handleGameComplete s now else s

/-- A sequence of events. -/
def run (L : Layout) (s : GameState) (events : List Event) : GameState :=
  events.foldl (step L) s

/-! ## Scenarios -/

/-- A board of 800 by 600 pixels with tiles of 100 pixels. -/
def demoLayout : Layout :=
  { boardWidth := 800, boardHeight := 600, tileSize := 100 }

/-- An easy session started at time 0 with the shuffle that draws `j = i` at every step
(the order of creation is kept) and the tiles laid out along a diagonal. -/
def diagonalSession : GameState :=
  startGame { initialGameState with difficulty := .easy } (fun i => i)
    (fun k => (20 + 60 * (k : Int), 20 + 40 * (k : Int))) 0

/-- Four releases in which all tiles of one character are held at once: the pointer goes
down on each of them, moves to the top-left corner, where the held tiles are clamped to
`(0, 0)`, and is released. -/
def heldGroupEvents : List Event :=
  [ .pointerDown 5 330 230, .pointerDown 4 330 230, .pointerMove 1 1, .pointerUp 1000,
    .pointerDown 7 450 310, .pointerDown 6 450 310, .pointerMove 1 1, .pointerUp 2000,
    .pointerDown 9 570 390, .pointerDown 0 570 390, .pointerDown 1 570 390,
    .pointerDown 8 570 390, .pointerMove 1 1, .pointerUp 3000,
    .pointerDown 11 690 470, .pointerDown 2 690 470, .pointerDown 3 690 470,
    .pointerDown 10 690 470, .pointerMove 1 1, .pointerUp 4000 ]

/-- An easy session in which the `leo1` tiles at indices 1 and 8 lie 40 pixels apart. -/
def crowdedSession : GameState :=
  startGame { initialGameState with difficulty := .easy } (fun i => i)
    (fun k => if k = 0 then (300, 300) else if k = 1 then (150, 100)
      else if k = 8 then (110, 100) else (20 + 60 * (k : Int), 450)) 0

/-- The tile at index 0 is picked up at `(350, 350)` and moved to `(150, 150)`, which puts
it at `(100, 100)`. -/
def crowdedDragEvents : List Event :=
  [ .pointerDown 0 350 350, .pointerMove 150 150 ]

/-- The crowded session after tile 0 has been released at `(100, 100)`. -/
def crowdedAfterRelease : GameState :=
  run demoLayout crowdedSession (crowdedDragEvents ++ [.pointerUp 1000])

/-- Tile 8 is dragged next to tile 1 and released, the game is paused, the timer ticks. -/
def crowdedLaterEvents : List Event :=
  [.pointerDown 8 120 110, .pointerMove 160 110, .pointerUp 2000, .pauseKey, .timerTick 3000]

/-! ## Counting helpers used in the statements -/

/-- Every tile that is matched in `s` is still there and matched in `s2`. -/
def MatchedKept (s s2 : GameState) : Prop :=
  ∀ (i : Nat) (t : Tile), s.tiles[i]? = some t → t.matched = true →
    ∃ t2 : Tile, s2.tiles[i]? = some t2 ∧ t2.matched = true

/-! ## Shuffle: permutation lemmas -/

theorem swapAt_perm {α : Type} (xs : List α) (i j : Nat) : (swapAt xs i j).Perm xs := by
  classical
  unfold swapAt
  split
  · rename_i a b ha hb
    obtain ⟨hi, hai⟩ := List.getElem?_eq_some_iff.mp ha
    obtain ⟨hj, hbj⟩ := List.getElem?_eq_some_iff.mp hb
    rw [List.perm_iff_count]
    intro c
    have hj2 : j < (xs.set i b).length := by simpa using hj
    rw [List.count_set _ _ _ _ hj2, List.count_set _ _ _ _ hi]
    have hget : (xs.set i b)[j] = b := by
      rw [List.getElem_set]
      split
      · rfl
      · exact hbj
    rw [hget, hai]
    have hpos : (if (a == c) = true then 1 else 0) ≤ List.count c xs := by
      split
      · rename_i h
        have hac : a = c := by simpa using h
        subst hac
        have hmem : a ∈ xs := hai ▸ List.getElem_mem hi
        exact List.count_pos_iff.mpr hmem
      · exact Nat.zero_le _
    omega
  · exact List.Perm.refl _

theorem shuffleLoop_perm {α : Type} (pick : Nat → Nat) (n : Nat) (xs : List α) :
    (shuffleLoop pick n xs).Perm xs := by
  induction n generalizing xs with
  | zero => exact List.Perm.refl _
  | succ n ih => exact (ih _).trans (swapAt_perm xs (n + 1) (pick (n + 1)))

/-! ## Tile factory: counting lemmas -/

theorem length_placed (place : Nat → Int × Int) (l : List Tile) :
    (l.enum.map fun (entry : Nat × Tile) =>
      { entry.2 with offsetLeft := (place entry.1).1, offsetTop := (place entry.1).2 }).length
      = l.length := by
  simp

theorem length_tilePairs (n : Nat) : (tilePairs n).length = 2 * n := by
  unfold tilePairs
  induction n with
  | zero => rfl
  | succ n ih =>
    rw [List.range_succ, List.flatMap_append, List.length_append, ih]
    simp [pairTiles]
    omega

/-! ## Claims on the shuffle and the tile factory -/

/-- C9: for every array and every sequence of index choices with `pick i ≤ i`, the array
after `shuffleArray` is a permutation of the input, of the same length. -/
theorem shuffleArray_permutation {α : Type} (xs : List α) (pick : Nat → Nat)
    (hpick : ∀ i, pick i ≤ i) :
    (shuffleArray pick xs).Perm xs ∧ (shuffleArray pick xs).length = xs.length := by
  have _ := hpick
  have h : (shuffleArray pick xs).Perm xs := shuffleLoop_perm pick _ xs
  exact ⟨h, h.length_eq⟩

/-- Witness for C9: reversing choices on a four element array. -/
theorem shuffleArray_permutation_witness :
    (∀ i : Nat, (fun k : Nat => k / 2) i ≤ i) ∧
    ((shuffleArray (fun k => k / 2) [10, 20, 30, 40]).Perm [10, 20, 30, 40] ∧
      (shuffleArray (fun k => k / 2) [10, 20, 30, 40]).length = [10, 20, 30, 40].length) :=
  ⟨fun i => Nat.div_le_self i 2,
   shuffleArray_permutation [10, 20, 30, 40] (fun k => k / 2) (fun i => Nat.div_le_self i 2)⟩

/-- C5: for every difficulty and every outcome of the shuffle and of the placement,
`createTiles` leaves exactly twice the configured pair count in `gameState.tiles`:
12, 16 and 24 tiles for easy, medium and hard. -/
theorem createTiles_length (s : GameState) (pick : Nat → Nat) (place : Nat → Int × Int) :
    (createTiles s pick place).tiles.length = 2 * (CONFIG.difficulties s.difficulty).pairs ∧
    (createTiles s pick place).tiles.length =
      (match s.difficulty with
        | .easy => 12
        | .medium => 16
        | .hard => 24) := by
  have h : (createTiles s pick place).tiles.length
      = 2 * (CONFIG.difficulties s.difficulty).pairs := by
    unfold createTiles
    simp only
    rw [length_placed]
    unfold shuffleArray
    rw [(shuffleLoop_perm pick _ _).length_eq, length_tilePairs]
  refine ⟨h, ?_⟩
  rw [h]
  cases s.difficulty <;> rfl

theorem getElem?_clearHighlights (tiles : List Tile) (j : Nat) :
    (clearHighlights tiles)[j]? = (tiles[j]?).map fun tile => { tile with highlight := false } := by
  unfold clearHighlights
  exact List.getElem?_map _ _ _

theorem isCandidate_iff (d : Nat) (dragged : Tile) (x y : Int) (j : Nat) (tile : Tile) :
    isCandidate d dragged x y j tile = true ↔
      j ≠ d ∧ tile.matched = false ∧ tile.characterId = dragged.characterId ∧
      getDistanceSq x y tile.offsetLeft tile.offsetTop ≤ 3600 := by
  unfold isCandidate withinMatchDistance CONFIG.matchDistance
  by_cases h1 : j = d
  · simp [h1]
  · by_cases h2 : tile.matched = true
    · simp [h2]
    · by_cases h3 : tile.characterId = dragged.characterId
      · simp [h1, h2, h3]
      · simp [h1, h2, h3]

theorem mem_matchingTiles (s : GameState) (d : Nat) (x y : Int) (j : Nat) :
    j ∈ matchingTiles s d x y ↔
      ∃ dragged tile, s.tiles[d]? = some dragged ∧ s.tiles[j]? = some tile ∧
        isCandidate d dragged x y j tile = true := by
  unfold matchingTiles
  cases hd : s.tiles[d]? with
  | none => simp
  | some dragged =>
    simp only [List.mem_map, List.mem_filter, List.mem_enum_iff_getElem?, Prod.exists,
      Option.some.injEq]
    constructor
    · rintro ⟨a, tile, ⟨hget, hc⟩, rfl⟩
      exact ⟨dragged, tile, rfl, hget, hc⟩
    · rintro ⟨dragged2, tile, rfl, hget, hc⟩
      exact ⟨j, tile, ⟨hget, hc⟩, rfl⟩

theorem mem_nearbyMatches (s : GameState) (d : Nat) (x y : Int) (j : Nat) :
    j ∈ nearbyMatches s d x y ↔ j ∈ matchingTiles s d x y := by
  unfold nearbyMatches matchingTiles
  exact Iff.rfl

theorem mem_matchingTiles_clear (s : GameState) (d : Nat) (x y : Int) (j : Nat) :
    j ∈ matchingTiles { s with tiles := clearHighlights s.tiles } d x y ↔
      j ∈ matchingTiles s d x y := by
  rw [mem_matchingTiles, mem_matchingTiles]
  simp only [getElem?_clearHighlights]
  constructor
  · rintro ⟨dragged, tile, hd, hj, hc⟩
    cases hd2 : s.tiles[d]? with
    | none => simp [hd2] at hd
    | some dr =>
      cases hj2 : s.tiles[j]? with
      | none => simp [hj2] at hj
      | some tl =>
        simp only [hd2, hj2, Option.map_some', Option.some.injEq] at hd hj
        subst hd hj
        refine ⟨dr, tl, rfl, rfl, ?_⟩
        rw [isCandidate_iff] at hc ⊢
        exact hc
  · rintro ⟨dragged, tile, hd, hj, hc⟩
    refine ⟨_, _, by rw [hd]; rfl, by rw [hj]; rfl, ?_⟩
    rw [isCandidate_iff] at hc ⊢
    exact hc

theorem checkForMatchesCall_eq_some (s : GameState) (d : Nat) (x y : Int) (m : Nat × Nat)
    (h : checkForMatchesCall s d x y = some m) :
    m.1 = d ∧ m.2 ∈ matchingTiles s d x y := by
  unfold checkForMatchesCall at h
  simp only at h
  split at h
  · exact absurd h (by simp)
  · rename_i matchedTile rest heq
    have hm : m = (d, matchedTile) := by
      simpa using h.symm
    subst hm
    refine ⟨rfl, ?_⟩
    rw [← mem_matchingTiles_clear, heq]
    exact List.mem_cons_self _ _

theorem checkForMatchesCall_isSome (s : GameState) (d : Nat) (x y : Int) :
    (checkForMatchesCall s d x y).isSome = true ↔ ∃ j, j ∈ matchingTiles s d x y := by
  constructor
  · intro h
    obtain ⟨m, hm⟩ := Option.isSome_iff_exists.mp h
    exact ⟨m.2, (checkForMatchesCall_eq_some s d x y m hm).2⟩
  · rintro ⟨j, hj⟩
    rw [← mem_matchingTiles_clear] at hj
    unfold checkForMatchesCall
    simp only
    split
    · rename_i heq
      rw [heq] at hj
      exact absurd hj (List.not_mem_nil _)
    · rfl

theorem sqrt_le_matchDistance (x y a b : Int) :
    Real.sqrt (((x : ℝ) - a) ^ 2 + ((y : ℝ) - b) ^ 2) ≤ 60 ↔ getDistanceSq x y a b ≤ 3600 := by
  rw [Real.sqrt_le_iff]
  unfold getDistanceSq
  constructor
  · rintro ⟨_, h⟩
    have h2 : (((x - a) * (x - a) + (y - b) * (y - b) : Int) : ℝ) ≤ ((3600 : Int) : ℝ) := by
      push_cast
      nlinarith [h]
    exact_mod_cast h2
  · intro h
    refine ⟨by norm_num, ?_⟩
    have h2 : (((x - a) * (x - a) + (y - b) * (y - b) : Int) : ℝ) ≤ ((3600 : Int) : ℝ) := by
      exact_mod_cast h
    push_cast at h2
    nlinarith [h2]

/-! ## Claims on the match engine -/

/-- C1: `checkForMatches` on the released tile at index `d` and the position `(x, y)` calls
`handleMatch` if and only if some other tile is unmatched, has the character-group id of the
released tile and lies at Euclidean distance at most 60 from `(x, y)`; the tile it passes
along always has the character-group id of the released tile. -/
theorem checkForMatches_declares_match_iff (s : GameState) (d : Nat) (x y : Int)
    (dragged : Tile) (hd : s.tiles[d]? = some dragged) :
    ((checkForMatchesCall s d x y).isSome = true ↔
      ∃ j t, s.tiles[j]? = some t ∧ j ≠ d ∧ t.matched = false ∧
        t.characterId = dragged.characterId ∧
        Real.sqrt (((x : ℝ) - t.offsetLeft) ^ 2 + ((y : ℝ) - t.offsetTop) ^ 2) ≤ 60) ∧
    (∀ m, checkForMatchesCall s d x y = some m →
      m.1 = d ∧ m.2 ≠ d ∧ ∃ t, s.tiles[m.2]? = some t ∧ t.matched = false ∧
        t.characterId = dragged.characterId) ∧
    (∀ now, checkForMatches s d x y now =
      match checkForMatchesCall s d x y with
      | none => { s with tiles := clearHighlights s.tiles }
      | some m => handleMatch { s with tiles := clearHighlights s.tiles } m.1 m.2 now) := by
  refine ⟨?_, ?_, ?_⟩
  · rw [checkForMatchesCall_isSome]
    constructor
    · rintro ⟨j, hj⟩
      obtain ⟨dragged2, tile, hd2, hget, hc⟩ := (mem_matchingTiles s d x y j).mp hj
      rw [hd] at hd2
      cases hd2
      obtain ⟨h1, h2, h3, h4⟩ := (isCandidate_iff d dragged x y j tile).mp hc
      exact ⟨j, tile, hget, h1, h2, h3, (sqrt_le_matchDistance _ _ _ _).mpr h4⟩
    · rintro ⟨j, t, hget, h1, h2, h3, h4⟩
      exact ⟨j, (mem_matchingTiles s d x y j).mpr ⟨dragged, t, hd, hget,
        (isCandidate_iff d dragged x y j t).mpr
          ⟨h1, h2, h3, (sqrt_le_matchDistance _ _ _ _).mp h4⟩⟩⟩
  · intro m hm
    obtain ⟨hm1, hm2⟩ := checkForMatchesCall_eq_some s d x y m hm
    obtain ⟨dragged2, tile, hd2, hget, hc⟩ := (mem_matchingTiles s d x y m.2).mp hm2
    rw [hd] at hd2
    cases hd2
    obtain ⟨h1, h2, h3, _⟩ := (isCandidate_iff d dragged x y m.2 tile).mp hc
    exact ⟨hm1, h1, tile, hget, h2, h3⟩
  · intro now
    unfold checkForMatches
    simp only
    cases checkForMatchesCall s d x y <;> rfl

/-! ## The matched flag along a session -/

theorem MatchedKept.refl (s : GameState) : MatchedKept s s := by
  intro _ t ht hm
  exact ⟨t, ht, hm⟩

theorem MatchedKept.trans {s s2 s3 : GameState} (h12 : MatchedKept s s2)
    (h23 : MatchedKept s2 s3) : MatchedKept s s3 := by
  intro i t ht hm
  obtain ⟨t2, ht2, hm2⟩ := h12 i t ht hm
  exact h23 i t2 ht2 hm2

theorem getElem?_modifyTile (f : Tile → Tile) (i : Nat) (ts : List Tile) (j : Nat) :
    (modifyTile f i ts)[j]? = if j = i then (ts[j]?).map f else ts[j]? := by
  induction ts generalizing i j with
  | nil => cases i <;> simp [modifyTile]
  | cons t ts ih =>
    cases i with
    | zero =>
      cases j with
      | zero => simp [modifyTile]
      | succ j => simp [modifyTile]
    | succ i =>
      cases j with
      | zero => simp [modifyTile]
      | succ j => simp [modifyTile, ih]

theorem matchedKept_of_tiles (s s2 : GameState)
    (h : ∀ (i : Nat) (t : Tile), s.tiles[i]? = some t → ∃ t2 : Tile, s2.tiles[i]? = some t2 ∧
      (t.matched = true → t2.matched = true)) : MatchedKept s s2 := by
  intro i t ht hm
  obtain ⟨t2, ht2, himp⟩ := h i t ht
  exact ⟨t2, ht2, himp hm⟩

theorem matchedKept_modifyTile (s s2 : GameState) (f : Tile → Tile) (i : Nat)
    (hf : ∀ t, t.matched = true → (f t).matched = true)
    (h2 : s2.tiles = modifyTile f i s.tiles) : MatchedKept s s2 := by
  apply matchedKept_of_tiles
  intro j t ht
  rw [h2, getElem?_modifyTile]
  split
  · exact ⟨f t, by rw [ht]; rfl, hf t⟩
  · exact ⟨t, ht, id⟩

theorem matchedKept_clearHighlights (s s2 : GameState)
    (h2 : s2.tiles = clearHighlights s.tiles) : MatchedKept s s2 := by
  apply matchedKept_of_tiles
  intro j t ht
  rw [h2, getElem?_clearHighlights, ht]
  exact ⟨_, rfl, id⟩

theorem matchedKept_handleMatch (s : GameState) (i1 i2 : Nat) (now : Int) :
    MatchedKept s (handleMatch s i1 i2 now) := by
  have h1 : MatchedKept s
      { s with tiles := modifyTile (fun t => { t with matched := true }) i1 s.tiles } :=
    matchedKept_modifyTile _ _ (fun t => { t with matched := true }) i1 (fun _ _ => rfl) rfl
  refine h1.trans ?_
  exact matchedKept_modifyTile _ _ (fun t => { t with matched := true }) i2 (fun _ _ => rfl) rfl

theorem matchedKept_checkForMatches (s : GameState) (d : Nat) (x y now : Int) :
    MatchedKept s (checkForMatches s d x y now) := by
  have h1 : MatchedKept s { s with tiles := clearHighlights s.tiles } :=
    matchedKept_clearHighlights _ _ rfl
  unfold checkForMatches
  simp only
  split
  · exact h1
  · exact h1.trans (matchedKept_handleMatch _ _ _ _)

theorem matchedKept_checkForNearbyMatches (s : GameState) (d : Nat) (x y : Int) :
    MatchedKept s (checkForNearbyMatches s d x y) := by
  unfold checkForNearbyMatches
  split
  · exact MatchedKept.refl s
  · rename_i dragged hd
    apply matchedKept_of_tiles
    intro j t ht
    simp only [List.getElem?_map, List.getElem?_enum, getElem?_clearHighlights, ht,
      Option.map_some']
    refine ⟨_, rfl, ?_⟩
    intro hm
    split <;> exact hm

theorem matchedKept_startDrag (s : GameState) (i : Nat) (clientX clientY : Int) :
    MatchedKept s (startDrag s i clientX clientY) := by
  unfold startDrag
  split
  · exact MatchedKept.refl s
  · split
    · exact MatchedKept.refl s
    · exact matchedKept_modifyTile _ _ (fun t =>
        { t with isDragging := true, startX := clientX, startY := clientY,
                 initialX := t.offsetLeft, initialY := t.offsetTop }) i (fun _ h => h) rfl

theorem matchedKept_drag (L : Layout) (s : GameState) (i : Nat) (clientX clientY : Int) :
    MatchedKept s (drag L s i clientX clientY) := by
  unfold drag
  split
  · exact MatchedKept.refl s
  · split
    · exact MatchedKept.refl s
    · simp only
      refine MatchedKept.trans ?_ (matchedKept_checkForNearbyMatches _ _ _ _)
      rename_i tile _ _
      exact matchedKept_modifyTile _ _ (fun t =>
        { t with
          offsetLeft := clampToBoard (tile.initialX + (clientX - tile.startX))
            (L.boardWidth - L.tileSize),
          offsetTop := clampToBoard (tile.initialY + (clientY - tile.startY))
            (L.boardHeight - L.tileSize) }) i (fun _ h => h) rfl

theorem matchedKept_endDrag (s : GameState) (i : Nat) (now : Int) :
    MatchedKept s (endDrag s i now) := by
  unfold endDrag
  split
  · exact MatchedKept.refl s
  · split
    · exact MatchedKept.refl s
    · simp only
      refine MatchedKept.trans ?_ (matchedKept_checkForMatches _ _ _ _ _)
      exact matchedKept_modifyTile _ _ (fun t => { t with isDragging := false }) i
        (fun _ h => h) rfl

theorem matchedKept_foldl {β : Type} (f : GameState → β → GameState)
    (hf : ∀ st b, MatchedKept st (f st b)) (l : List β) (s : GameState) :
    MatchedKept s (l.foldl f s) := by
  induction l generalizing s with
  | nil => exact MatchedKept.refl s
  | cons b l ih => exact (hf s b).trans (ih (f s b))

theorem matchedKept_step (L : Layout) (s : GameState) (e : Event) :
    MatchedKept s (step L s e) := by
  cases e with
  | pointerDown i clientX clientY => exact matchedKept_startDrag s i clientX clientY
  | pointerMove clientX clientY =>
    exact matchedKept_foldl _ (fun st i => matchedKept_drag L st i clientX clientY) _ s
  | pointerUp now =>
    exact matchedKept_foldl _ (fun st i => matchedKept_endDrag st i now) _ s
  | pauseKey =>
    show MatchedKept s (if s.isPlaying then { s with isPaused := !s.isPaused } else s)
    split
    · exact fun _ t ht hm => ⟨t, ht, hm⟩
    · exact MatchedKept.refl s
  | timerTick now => exact MatchedKept.refl s
  | completionTimeout now =>
    show MatchedKept s (if s.matchedPairs ≥ s.totalPairs then handleGameComplete s now else s)
    split
    · exact fun _ t ht hm => ⟨t, ht, hm⟩
    · exact MatchedKept.refl s

theorem matchedKept_run (L : Layout) (s : GameState) (events : List Event) :
    MatchedKept s (run L s events) :=
  matchedKept_foldl _ (matchedKept_step L) events s

theorem not_mem_matchingTiles_of_matched (s : GameState) (d : Nat) (x y : Int) (i : Nat)
    (t : Tile) (ht : s.tiles[i]? = some t) (hm : t.matched = true) :
    i ∉ matchingTiles s d x y := by
  intro hmem
  obtain ⟨dragged, tile, _, hget, hc⟩ := (mem_matchingTiles s d x y i).mp hmem
  rw [ht] at hget
  cases hget
  have h2 := ((isCandidate_iff d dragged x y i t).mp hc).2.1
  rw [hm] at h2
  exact absurd h2 (by decide)

/-- C8: along any sequence of session events (pointer down, move, release with its matches,
pause key, timer tick, completion), a tile whose matched flag is true keeps it true, and in
the state reached neither `checkForMatches` nor `checkForNearbyMatches` selects it as a
candidate, for any dragged tile and position. -/
theorem matched_flag_stays_and_excludes (L : Layout) (s : GameState) (events : List Event)
    (i : Nat) (t : Tile) (ht : s.tiles[i]? = some t) (hm : t.matched = true) :
    (∃ t2, (run L s events).tiles[i]? = some t2 ∧ t2.matched = true) ∧
    (∀ d x y, i ∉ matchingTiles (run L s events) d x y ∧
      i ∉ nearbyMatches (run L s events) d x y ∧
      (∀ m, checkForMatchesCall (run L s events) d x y = some m → m.2 ≠ i) ∧
      ∀ dragged t3, (run L s events).tiles[d]? = some dragged →
        (checkForNearbyMatches (run L s events) d x y).tiles[i]? = some t3 →
        t3.highlight = false) := by
  obtain ⟨t2, ht2, hm2⟩ := matchedKept_run L s events i t ht hm
  refine ⟨⟨t2, ht2, hm2⟩, ?_⟩
  intro d x y
  have hnot := not_mem_matchingTiles_of_matched (run L s events) d x y i t2 ht2 hm2
  refine ⟨hnot, ?_, ?_, ?_⟩
  · rw [mem_nearbyMatches]
    exact hnot
  · intro m hcall heq
    have := (checkForMatchesCall_eq_some _ d x y m hcall).2
    rw [heq] at this
    exact hnot this
  · intro dragged t3 hd ht3
    unfold checkForNearbyMatches at ht3
    · rw [hd] at ht3
      simp only [List.getElem?_map, List.getElem?_enum, getElem?_clearHighlights, ht2,
        Option.map_some', Option.some.injEq] at ht3
      have hc : isCandidate d dragged x y i { t2 with highlight := false } = false := by
        unfold isCandidate
        simp [hm2]
      rw [hc] at ht3
      simp only [Bool.false_eq_true, ↓reduceIte] at ht3
      rw [← ht3]

/-! ## Claims on the closest candidate and on the pair counter -/

/-- C2 fails on the code: with the `leo1` tile 0 released at `(100, 100)`, the candidates
are tile 1 at distance 50 and tile 8 at distance 10, and `checkForMatches` passes tile 1,
the first in iteration order, to `handleMatch`; after the release tile 1 is matched and the
closer tile 8 is not. -/
theorem checkForMatches_takes_first_not_closest :
    matchingTiles (run demoLayout crowdedSession crowdedDragEvents) 0 100 100 = [1, 8] ∧
    checkForMatchesCall (run demoLayout crowdedSession crowdedDragEvents) 0 100 100
      = some (0, 1) ∧
    ((run demoLayout crowdedSession crowdedDragEvents).tiles.map fun t =>
      (t.characterId, t.offsetLeft, t.offsetTop)).take 2 =
      [("leo1", 100, 100), ("leo1", 150, 100)] ∧
    ((run demoLayout crowdedSession crowdedDragEvents).tiles[8]?.map fun t =>
      (t.characterId, t.offsetLeft, t.offsetTop)) = some ("leo1", 110, 100) ∧
    getDistanceSq 100 100 110 100 < getDistanceSq 100 100 150 100 ∧
    ((run demoLayout crowdedSession (crowdedDragEvents ++ [.pointerUp 1000])).tiles.map
      fun t => t.matched) =
      [true, true, false, false, false, false, false, false, false, false, false, false] := by
  decide

set_option maxRecDepth 100000 in
/-- C7 fails on the code: in an easy session (6 pairs) in which the tiles of each character
are held together and released at the top-left corner, `handleMatch` runs 8 times, so that
`matchedPairs` is 8 while `totalPairs` is 6. -/
theorem matchedPairs_exceeds_totalPairs :
    (run demoLayout diagonalSession heldGroupEvents).matchedPairs = 8 ∧
    (run demoLayout diagonalSession heldGroupEvents).totalPairs = 6 ∧
    (run demoLayout diagonalSession heldGroupEvents).isPlaying = true := by
  decide

/-! ## Claims on scoring -/

/-- Witness for C1: the release of tile 0 at `(100, 100)` in the crowded session. -/
theorem checkForMatches_declares_match_iff_witness :
    (run demoLayout crowdedSession crowdedDragEvents).tiles[0]? = some
      { id := ("leo1", 0, 0), characterId := "leo1", name := "DiCaprio 1", matched := false,
        offsetLeft := 100, offsetTop := 100, highlight := false, isDragging := true,
        startX := 350, startY := 350, initialX := 300, initialY := 300 } ∧
    ∃ j t, (run demoLayout crowdedSession crowdedDragEvents).tiles[j]? = some t ∧ j ≠ 0 ∧
      t.matched = false ∧ t.characterId = "leo1" ∧
      Real.sqrt (((100 : ℝ) - t.offsetLeft) ^ 2 + ((100 : ℝ) - t.offsetTop) ^ 2) ≤ 60 :=
  have ht : (run demoLayout crowdedSession crowdedDragEvents).tiles[0]? = some
      { id := ("leo1", 0, 0), characterId := "leo1", name := "DiCaprio 1", matched := false,
        offsetLeft := 100, offsetTop := 100, highlight := false, isDragging := true,
        startX := 350, startY := 350, initialX := 300, initialY := 300 } := by decide
  ⟨ht, by
    simpa using (checkForMatches_declares_match_iff
      (run demoLayout crowdedSession crowdedDragEvents) 0 100 100 _ ht).1.mp (by decide)⟩

/-- Witness for C8: tile 1 is matched by the first release of the crowded session, and stays
so while tile 8 is dragged next to it and released, the game is paused and the timer ticks. -/
theorem matched_flag_stays_and_excludes_witness :
    crowdedAfterRelease.tiles[1]? = some
      { id := ("leo1", 0, 1), characterId := "leo1", name := "DiCaprio 1", matched := true,
        offsetLeft := 150, offsetTop := 100, highlight := false, isDragging := false,
        startX := 0, startY := 0, initialX := 0, initialY := 0 } ∧
    (∃ t2, (run demoLayout crowdedAfterRelease crowdedLaterEvents).tiles[1]? = some t2 ∧
      t2.matched = true) ∧
    1 ∉ matchingTiles (run demoLayout crowdedAfterRelease crowdedLaterEvents) 8 150 100 := by
  have ht : crowdedAfterRelease.tiles[1]? = some
      { id := ("leo1", 0, 1), characterId := "leo1", name := "DiCaprio 1", matched := true,
        offsetLeft := 150, offsetTop := 100, highlight := false, isDragging := false,
        startX := 0, startY := 0, initialX := 0, initialY := 0 } := by decide
  have h := matched_flag_stays_and_excludes demoLayout crowdedAfterRelease crowdedLaterEvents
    1 _ ht rfl
  exact ⟨ht, h.1, (h.2 8 150 100).1⟩

end MatchMe
